import Mathlib

/-!
Verification of the conversation-agent wrapper (`src/agents/basic_agent.py`)
against its natural-language specification.

The agent is embedded shallowly: conversation state is an explicit structure,
the remote completion call is a parameter of type `List Msg → Except String String`
(success returns the response text, failure carries a transport error), and the
file system consulted at construction is an explicit association list.
-/

/-- Message roles, as in the langchain message classes. -/
inductive Role where
  | user
  | assistant
  | system
deriving DecidableEq, Repr

/-- A role-tagged text message. -/
structure Msg where
  role : Role
  content : String
deriving DecidableEq, Repr

/-- `HumanMessage(content=c)`. -/
def HumanMessage (c : String) : Msg := ⟨Role.user, c⟩

/-- `AIMessage(content=c)`. -/
def AIMessage (c : String) : Msg := ⟨Role.assistant, c⟩

/-- `SystemMessage(content=c)`. -/
def SystemMessage (c : String) : Msg := ⟨Role.system, c⟩

/-- A file system: association list from path to contents.
`os.path.exists` is membership; reading returns the stored contents. -/
def FS : Type := List (String × String)

/-- Look up the contents of a path. -/
def FS.lookup (fs : FS) (p : String) : Option String :=
  match fs with
  | [] => none
  | kv :: rest => if kv.1 = p then some kv.2 else FS.lookup rest p

/-- `os.path.exists(p)`. The empty path never exists on a real file system. -/
def os_path_exists (fs : FS) (p : String) : Bool :=
  !(p = "") && (fs.lookup p).isSome

/-- Python whitespace characters stripped by `str.strip()` (ASCII range). -/
def isPyWhitespace (c : Char) : Bool :=
  c = ' ' || c = '\t' || c = '\n' || c = '\x0d' || c = '\x0b' || c = '\x0c'

/-- Python `str.strip()`: remove leading and trailing whitespace. -/
def pyStrip (s : String) : String :=
  String.mk (((s.data.dropWhile isPyWhitespace).reverse.dropWhile isPyWhitespace).reverse)

/-- The hardcoded default system prompt of `BasicAgent.__init__`. -/
def defaultSystemPrompt : String :=
  "You are a helpful AI assistant. Answer questions clearly and concisely."

/-- The default of the `model` keyword parameter in `BasicAgent.__init__`. -/
def defaultModel : String := "gpt-3.5-turbo"

/-- The state of a `BasicAgent`: the sparse parameter map handed to the remote
client, the mutable conversation history, and the immutable system message. -/
structure BasicAgent where
  llm_params : List (String × String)
  conversation_history : List Msg
  system_message : Msg
deriving DecidableEq, Repr

/-- `BasicAgent.__init__`. Optional Python keyword arguments are `Option`s:
`model = none` means the caller did not supply `model`, so the Python default
`"gpt-3.5-turbo"` applies; `system_prompt_path`/`reasoning_effort` default to
`None`. Python truthiness (`if reasoning_effort:`, `if system_prompt_path and
os.path.exists(...)`) makes the empty string behave like `None`.
`temperature` is carried uninterpreted as its textual value (no arithmetic is done
on it). -/
def BasicAgent.init (fs : FS) (api_key : String) (model : Option String)
    (temperature : String) (system_prompt_path : Option String)
    (reasoning_effort : Option String) : BasicAgent :=
  let m : String := match model with
    | some m => m
    | none => defaultModel
  let base : List (String × String) :=
    [("api_key", api_key), ("model", m), ("temperature", temperature)]
  let llm_params : List (String × String) :=
    match reasoning_effort with
    | some re => if re = "" then base else base ++ [("reasoning_effort", re)]
    | none => base
  let system_prompt : String :=
    match system_prompt_path with
    | some p =>
        if !(p = "") && os_path_exists fs p then
          pyStrip ((fs.lookup p).getD "")
        else defaultSystemPrompt
    | none => defaultSystemPrompt
  { llm_params := llm_params
    conversation_history := []
    system_message := SystemMessage system_prompt }

/-- Look up a key in the parameter map of the agent (`none` means the key is
absent from the map, not present with an empty value). -/
def BasicAgent.lookupParam (a : BasicAgent) (k : String) : Option String :=
  match a.llm_params.find? (fun kv => kv.1 = k) with
  | some kv => some kv.2
  | none => none

/-- The message sequence `[self.system_message] + self.conversation_history`
built by `chat` after appending the new user turn. -/
def BasicAgent.requestMessages (a : BasicAgent) (user_message : String) : List Msg :=
  a.system_message :: (a.conversation_history ++ [HumanMessage user_message])

/-- `BasicAgent.chat`. `invoke` is the remote completion call
(`self.llm.invoke`): `Except.ok r` models a response with text `r`,
`Except.error e` models a raised transport error. The user turn is appended
before the remote call; on success the assistant turn is appended and the
text returned; on failure the error propagates and the user turn remains. -/
def BasicAgent.chat (a : BasicAgent) (invoke : List Msg → Except String String)
    (user_message : String) : BasicAgent × Except String String :=
  let afterUser : BasicAgent :=
    { a with conversation_history := a.conversation_history ++ [HumanMessage user_message] }
  match invoke (a.requestMessages user_message) with
  | Except.error e => (afterUser, Except.error e)
  | Except.ok r =>
      ({ afterUser with
          conversation_history := afterUser.conversation_history ++ [AIMessage r] },
        Except.ok r)

/-- `BasicAgent.clear_history`. -/
def BasicAgent.clear_history (a : BasicAgent) : BasicAgent :=
  { a with conversation_history := [] }

/-- Whether an `Except` result is a success. -/
def exceptIsOk : Except String String → Bool
  | Except.ok _ => true
  | Except.error _ => false

/-- Run a sequence of `chat` calls; each call carries its own remote stub and
user message. Returns the final agent state. -/
def runChatSeq (a : BasicAgent) :
    List ((List Msg → Except String String) × String) → BasicAgent
  | [] => a
  | c :: rest => runChatSeq (a.chat c.1 c.2).1 rest

/-- Every `chat` call in the sequence succeeds (its remote stub returns text
rather than raising). -/
def chatSeqOk (a : BasicAgent) :
    List ((List Msg → Except String String) × String) → Bool
  | [] => true
  | c :: rest => exceptIsOk (a.chat c.1 c.2).2 && chatSeqOk (a.chat c.1 c.2).1 rest

/-- The history strictly alternates user, assistant, user, assistant, …,
beginning with a user turn. -/
def userAssistantAlt : List Msg → Bool
  | [] => true
  | [m] => m.role = Role.user
  | u :: b :: rest => u.role = Role.user && b.role = Role.assistant && userAssistantAlt rest

/-- Flatten a list of (user text, assistant text) pairs into a history. -/
def pairsFlat : List (String × String) → List Msg
  | [] => []
  | (m, r) :: rest => HumanMessage m :: AIMessage r :: pairsFlat rest

/-- One user-visible operation on an agent: a `chat` call (with its remote
stub and message) or a `clear_history` call. -/
inductive AgentOp where
  | chatOp (invoke : List Msg → Except String String) (m : String)
  | clearOp

/-- Apply one operation to the agent state. -/
def applyOp (a : BasicAgent) : AgentOp → BasicAgent
  | AgentOp.chatOp invoke m => (a.chat invoke m).1
  | AgentOp.clearOp => a.clear_history

/-- Apply a sequence of operations to the agent state. -/
def applyOps (a : BasicAgent) : List AgentOp → BasicAgent
  | [] => a
  | op :: rest => applyOps (applyOp a op) rest

/-! ## Helper lemmas -/

theorem chat_of_ok (a : BasicAgent) (invoke : List Msg → Except String String)
    (m r : String) (h : invoke (a.requestMessages m) = Except.ok r) :
    a.chat invoke m =
      ({ a with conversation_history :=
          a.conversation_history ++ [HumanMessage m, AIMessage r] },
        Except.ok r) := by
  simp only [BasicAgent.chat, h]
  simp

theorem chat_of_error (a : BasicAgent) (invoke : List Msg → Except String String)
    (m e : String) (h : invoke (a.requestMessages m) = Except.error e) :
    a.chat invoke m =
      ({ a with conversation_history := a.conversation_history ++ [HumanMessage m] },
        Except.error e) := by
  simp only [BasicAgent.chat, h]

theorem chat_ok_exists (a : BasicAgent) (invoke : List Msg → Except String String)
    (m : String) (h : exceptIsOk (a.chat invoke m).2 = true) :
    ∃ r, invoke (a.requestMessages m) = Except.ok r := by
  cases hi : invoke (a.requestMessages m) with
  | ok r => exact ⟨r, rfl⟩
  | error e =>
      rw [chat_of_error a invoke m e hi] at h
      simp [exceptIsOk] at h

theorem pairsFlat_append (ps : List (String × String)) (m r : String) :
    pairsFlat (ps ++ [(m, r)]) = pairsFlat ps ++ [HumanMessage m, AIMessage r] := by
  induction ps with
  | nil => rfl
  | cons q qs ih => simp [pairsFlat, ih]

theorem userAssistantAlt_pairsFlat (ps : List (String × String)) :
    userAssistantAlt (pairsFlat ps) = true := by
  induction ps with
  | nil => rfl
  | cons q qs ih => simp [pairsFlat, userAssistantAlt, ih, HumanMessage, AIMessage]

theorem length_pairsFlat (ps : List (String × String)) :
    (pairsFlat ps).length = 2 * ps.length := by
  induction ps with
  | nil => rfl
  | cons q qs ih => simp [pairsFlat, ih]; ring

theorem runChatSeq_pairs (calls : List ((List Msg → Except String String) × String)) :
    ∀ (a : BasicAgent) (ps : List (String × String)),
      a.conversation_history = pairsFlat ps →
      chatSeqOk a calls = true →
      ∃ qs : List (String × String),
        (runChatSeq a calls).conversation_history = pairsFlat qs ∧
        qs.length = ps.length + calls.length := by
  induction calls with
  | nil =>
      intro a ps hist _
      exact ⟨ps, hist, by simp⟩
  | cons c rest ih =>
      intro a ps hist hok
      have hok1 : exceptIsOk (a.chat c.1 c.2).2 = true := by
        simp [chatSeqOk] at hok
        exact hok.1
      have hok2 : chatSeqOk (a.chat c.1 c.2).1 rest = true := by
        simp [chatSeqOk] at hok
        exact hok.2
      obtain ⟨r, hr⟩ := chat_ok_exists a c.1 c.2 hok1
      have hstep := chat_of_ok a c.1 c.2 r hr
      have hist2 : (a.chat c.1 c.2).1.conversation_history = pairsFlat (ps ++ [(c.2, r)]) := by
        rw [hstep, pairsFlat_append, hist]
      obtain ⟨qs, hq1, hq2⟩ := ih (a.chat c.1 c.2).1 (ps ++ [(c.2, r)]) hist2 hok2
      refine ⟨qs, ?_, ?_⟩
      · simpa [runChatSeq] using hq1
      · simp at hq2
        simp [hq2]
        ring

/-- A concrete agent used by the witnesses: constructed with no prompt file,
no model, no reasoning effort, over an empty file system. -/
def agent0 : BasicAgent := BasicAgent.init [] "key" none "0.7" none none

/-! ## Claims -/

/-- C1: for every sequence of N successful `chat()` calls starting from an
empty conversation history, the history has length exactly 2·N and strictly
alternates roles user, assistant, user, assistant, …, beginning with a user
turn; and each successful `chat()` call appends exactly one user turn
immediately followed by exactly one assistant turn. -/
theorem chat_seq_length_and_alternation
    (a : BasicAgent) (calls : List ((List Msg → Except String String) × String))
    (hempty : a.conversation_history = [])
    (hok : chatSeqOk a calls = true) :
    (runChatSeq a calls).conversation_history.length = 2 * calls.length ∧
    userAssistantAlt (runChatSeq a calls).conversation_history = true ∧
    ∀ (b : BasicAgent) (invoke : List Msg → Except String String) (m r : String),
      invoke (b.requestMessages m) = Except.ok r →
      (b.chat invoke m).1.conversation_history =
        b.conversation_history ++ [HumanMessage m, AIMessage r] := by
  obtain ⟨qs, h1, h2⟩ := runChatSeq_pairs calls a []
    (by simpa [pairsFlat] using hempty) hok
  refine ⟨?_, ?_, ?_⟩
  · rw [h1, length_pairsFlat, h2]
    simp
  · rw [h1]
    exact userAssistantAlt_pairsFlat qs
  · intro b invoke m r h
    rw [chat_of_ok b invoke m r h]

/-- Witness for C1: two successful chat calls on a fresh agent leave a
4-element, strictly alternating history, and a single successful call appends
the user/assistant pair. -/
theorem chat_seq_length_and_alternation_witness :
    (runChatSeq agent0
        [(fun _ => Except.ok "A", "q1"), (fun _ => Except.ok "B", "q2")]).conversation_history.length
      = 2 * 2 ∧
    userAssistantAlt (runChatSeq agent0
        [(fun _ => Except.ok "A", "q1"), (fun _ => Except.ok "B", "q2")]).conversation_history
      = true ∧
    (agent0.chat (fun _ => Except.ok "A") "q1").1.conversation_history =
      agent0.conversation_history ++ [HumanMessage "q1", AIMessage "A"] :=
  ⟨(chat_seq_length_and_alternation agent0
      [(fun _ => Except.ok "A", "q1"), (fun _ => Except.ok "B", "q2")] rfl rfl).1,
   (chat_seq_length_and_alternation agent0
      [(fun _ => Except.ok "A", "q1"), (fun _ => Except.ok "B", "q2")] rfl rfl).2.1,
   (chat_seq_length_and_alternation agent0
      [(fun _ => Except.ok "A", "q1"), (fun _ => Except.ok "B", "q2")] rfl rfl).2.2
     agent0 (fun _ => Except.ok "A") "q1" "A" rfl⟩

/-- C2: when the remote call returns text `r`, `chat(m)` appends the user turn
`m`, invokes the remote call on `[SystemMessage] ++` the whole history
including that user turn, appends the assistant turn `r`, and returns `r`. -/
theorem chat_success_effect (a : BasicAgent)
    (invoke : List Msg → Except String String) (m r : String)
    (h : invoke (a.system_message :: (a.conversation_history ++ [HumanMessage m])) =
      Except.ok r) :
    a.requestMessages m = a.system_message :: (a.conversation_history ++ [HumanMessage m]) ∧
    (a.chat invoke m).2 = Except.ok r ∧
    (a.chat invoke m).1.conversation_history =
      a.conversation_history ++ [HumanMessage m, AIMessage r] := by
  have h2 : invoke (a.requestMessages m) = Except.ok r := h
  rw [chat_of_ok a invoke m r h2]
  exact ⟨rfl, rfl, rfl⟩

/-- Witness for C2: `chat("Hello")` with the remote stubbed to return
`"Hi there"` returns `"Hi there"` and leaves history
`[user:"Hello", assistant:"Hi there"]`. -/
theorem chat_success_effect_witness :
    (agent0.chat (fun _ => Except.ok "Hi there") "Hello").2 = Except.ok "Hi there" ∧
    (agent0.chat (fun _ => Except.ok "Hi there") "Hello").1.conversation_history =
      [HumanMessage "Hello", AIMessage "Hi there"] :=
  ⟨(chat_success_effect agent0 (fun _ => Except.ok "Hi there") "Hello" "Hi there" rfl).2.1,
   (chat_success_effect agent0 (fun _ => Except.ok "Hi there") "Hello" "Hi there" rfl).2.2⟩

/-- C3: when the remote call raises, `chat(m)` propagates the error and leaves
the history equal to the prior history with exactly the user turn `m` appended
and no assistant turn (no rollback). -/
theorem chat_failure_effect (a : BasicAgent)
    (invoke : List Msg → Except String String) (m e : String)
    (h : invoke (a.system_message :: (a.conversation_history ++ [HumanMessage m])) =
      Except.error e) :
    (a.chat invoke m).2 = Except.error e ∧
    (a.chat invoke m).1.conversation_history =
      a.conversation_history ++ [HumanMessage m] := by
  have h2 : invoke (a.requestMessages m) = Except.error e := h
  rw [chat_of_error a invoke m e h2]
  exact ⟨rfl, rfl⟩

/-- Witness for C3: from empty history, `chat("fails")` with the remote stubbed
to raise leaves history exactly `[user:"fails"]` and returns the error. -/
theorem chat_failure_effect_witness :
    (agent0.chat (fun _ => Except.error "transport error") "fails").2 =
      Except.error "transport error" ∧
    (agent0.chat (fun _ => Except.error "transport error") "fails").1.conversation_history =
      [HumanMessage "fails"] :=
  ⟨(chat_failure_effect agent0 (fun _ => Except.error "transport error") "fails"
      "transport error" rfl).1,
   (chat_failure_effect agent0 (fun _ => Except.error "transport error") "fails"
      "transport error" rfl).2⟩

/-- C6: `clear_history()` resets the history to empty from any prior state, is
idempotent, and a `chat()` after the clear builds its request from the empty
history only — no turns leak from before the clear. -/
theorem clear_history_resets (a : BasicAgent) :
    a.clear_history.conversation_history = [] ∧
    a.clear_history.clear_history.conversation_history = [] ∧
    (∀ m, a.clear_history.requestMessages m = [a.system_message, HumanMessage m]) ∧
    (∀ m r, ((a.clear_history).chat (fun _ => Except.ok r) m).1.conversation_history =
      [HumanMessage m, AIMessage r]) := by
  refine ⟨rfl, rfl, fun m => rfl, fun m r => ?_⟩
  rw [chat_of_ok a.clear_history (fun _ => Except.ok r) m r rfl]
  rfl

/-- C7: the system message is fixed at construction and never modified by any
sequence of `chat` (successful or failing) and `clear_history` calls. -/
theorem system_message_immutable (a : BasicAgent) (ops : List AgentOp) :
    (applyOps a ops).system_message = a.system_message := by
  induction ops generalizing a with
  | nil => rfl
  | cons op rest ih =>
      have hstep : (applyOp a op).system_message = a.system_message := by
        cases op with
        | chatOp invoke m =>
            show (a.chat invoke m).1.system_message = a.system_message
            unfold BasicAgent.chat
            cases invoke (a.requestMessages m) <;> rfl
        | clearOp => rfl
      calc (applyOps a (op :: rest)).system_message
          = (applyOps (applyOp a op) rest).system_message := rfl
        _ = (applyOp a op).system_message := ih (applyOp a op)
        _ = a.system_message := hstep

/-- C9: `chat("")` performs no local validation: the empty user message is
appended to history and forwarded unchanged in the request, and the result of the call
is exactly the result of the remote call (it raises only when the remote
raises). -/
theorem chat_empty_no_local_validation (a : BasicAgent)
    (invoke : List Msg → Except String String) :
    a.requestMessages "" = a.system_message :: (a.conversation_history ++ [HumanMessage ""]) ∧
    (a.chat invoke "").2 = invoke (a.requestMessages "") ∧
    (a.chat invoke "").1.conversation_history =
      (a.conversation_history ++ [HumanMessage ""]) ++
        (match invoke (a.requestMessages "") with
         | Except.ok r => [AIMessage r]
         | Except.error _ => []) := by
  refine ⟨rfl, ?_, ?_⟩ <;>
    cases h : invoke (a.requestMessages "") <;>
      simp [BasicAgent.chat, h]

/-- C4: if a system-prompt path is given and the file exists, the system
prompt is the contents of the file with leading and trailing whitespace trimmed;
if no path is given or the path does not exist, the system prompt is the
fixed default string. -/
theorem system_prompt_from_file_or_default (fs : FS) (k t : String)
    (mo re spp : Option String) :
    (∀ p c, spp = some p → p ≠ "" → fs.lookup p = some c →
      (BasicAgent.init fs k mo t spp re).system_message.content = pyStrip c) ∧
    ((spp = none ∨ ∃ p, spp = some p ∧ os_path_exists fs p = false) →
      (BasicAgent.init fs k mo t spp re).system_message.content = defaultSystemPrompt) := by
  constructor
  · intro p c hspp hp hc
    subst hspp
    simp [BasicAgent.init, SystemMessage, os_path_exists, hc, hp]
  · intro h
    rcases h with h | ⟨p, hspp, hex⟩
    · subst h
      simp [BasicAgent.init, SystemMessage]
    · subst hspp
      simp [BasicAgent.init, SystemMessage, hex]

/-- Witness for C4: a file containing `"  Be terse.\n"` yields exactly
`"Be terse."`; constructing with no path yields the fixed default prompt. -/
theorem system_prompt_from_file_or_default_witness :
    (BasicAgent.init [("prompts/sys.txt", "  Be terse.\n")] "key" none "0.7"
        (some "prompts/sys.txt") none).system_message.content = "Be terse." ∧
    (BasicAgent.init [] "key" none "0.7" none none).system_message.content =
      defaultSystemPrompt := by
  constructor
  · have h := (system_prompt_from_file_or_default
        [("prompts/sys.txt", "  Be terse.\n")] "key" "0.7" none none
        (some "prompts/sys.txt")).1 "prompts/sys.txt" "  Be terse.\n"
        rfl (by decide) rfl
    rw [h]
    decide
  · exact (system_prompt_from_file_or_default [] "key" "0.7" none none none).2
      (Or.inl rfl)

/-- C5: when `reasoning_effort` is not supplied, the parameter map passed to
the remote client contains no `reasoning_effort` key at all; when it is
supplied and set (non-empty), the key is included with that value. -/
theorem reasoning_effort_param_presence (fs : FS) (k t : String)
    (mo spp : Option String) :
    ((BasicAgent.init fs k mo t spp none).lookupParam "reasoning_effort" = none) ∧
    (∀ re, re ≠ "" →
      (BasicAgent.init fs k mo t spp (some re)).lookupParam "reasoning_effort" =
        some re) := by
  constructor
  · rfl
  · intro re hre
    simp [BasicAgent.init, BasicAgent.lookupParam, hre, List.find?]

/-- Witness for C5: with `reasoning_effort` unsupplied the key is absent; with
`reasoning_effort = "high"` the key maps to `"high"`. -/
theorem reasoning_effort_param_presence_witness :
    (BasicAgent.init [] "key" none "0.7" none none).lookupParam "reasoning_effort" =
      none ∧
    (BasicAgent.init [] "key" none "0.7" none (some "high")).lookupParam
      "reasoning_effort" = some "high" :=
  ⟨(reasoning_effort_param_presence [] "key" "0.7" none none).1,
   (reasoning_effort_param_presence [] "key" "0.7" none none).2 "high" (by decide)⟩

/-- C8 counterexample: the claim says `model` has no default value and must
always be supplied, but constructing the agent without supplying `model`
succeeds and yields the default model parameter `"gpt-3.5-turbo"` (the Python
signature reads `model: str = "gpt-3.5-turbo"`). -/
theorem model_required_counterexample :
    (BasicAgent.init [] "key" none "0.7" none none).lookupParam "model" =
      some "gpt-3.5-turbo" := rfl

/-- C8 (amended): the `model` construction parameter is optional with default
value `"gpt-3.5-turbo"`: when the caller omits it the parameter map carries the
default, and when the caller supplies `m` the parameter map carries `m`. -/
theorem model_param_default (fs : FS) (k t : String) (spp re : Option String) :
    (BasicAgent.init fs k none t spp re).lookupParam "model" = some defaultModel ∧
    (∀ m, (BasicAgent.init fs k (some m) t spp re).lookupParam "model" = some m) ∧
    defaultModel = "gpt-3.5-turbo" := by
  cases re with
  | none => exact ⟨rfl, fun m => rfl, rfl⟩
  | some r =>
      by_cases hr : r = ""
      · subst hr
        exact ⟨rfl, fun m => rfl, rfl⟩
      · refine ⟨?_, fun m => ?_, rfl⟩ <;>
          simp [BasicAgent.init, BasicAgent.lookupParam, hr, List.find?]

/-- Helper for C10: Python `strip()` of an all-whitespace string is empty. -/
theorem pyStrip_all_whitespace (c : String)
    (h : c.data.all isPyWhitespace = true) : pyStrip c = "" := by
  have h1 : c.data.dropWhile isPyWhitespace = [] := by
    rw [List.dropWhile_eq_nil_iff]
    intro x hx
    exact List.all_eq_true.mp h x hx
  unfold pyStrip
  rw [h1]
  rfl

/-- C10: a system-prompt path naming an existing file whose contents are only
whitespace yields the empty system prompt, not the default (which is a
non-empty string): the fallback is triggered only by an absent or nonexistent
path, never by whitespace-only contents. -/
theorem whitespace_only_prompt_file (fs : FS) (k t : String)
    (mo re : Option String) (p c : String) (hp : p ≠ "")
    (hc : fs.lookup p = some c) (hws : c.data.all isPyWhitespace = true) :
    (BasicAgent.init fs k mo t (some p) re).system_message.content = "" ∧
    defaultSystemPrompt ≠ "" := by
  constructor
  · have h : (BasicAgent.init fs k mo t (some p) re).system_message.content =
        pyStrip c := by
      simp [BasicAgent.init, SystemMessage, os_path_exists, hc, hp]
    rw [h]
    exact pyStrip_all_whitespace c hws
  · decide

/-- Witness for C10: a file containing `" \n\t "` yields the empty system
prompt. -/
theorem whitespace_only_prompt_file_witness :
    (BasicAgent.init [("prompts/blank.txt", " \n\t ")] "key" none "0.7"
        (some "prompts/blank.txt") none).system_message.content = "" ∧
    defaultSystemPrompt ≠ "" :=
  whitespace_only_prompt_file [("prompts/blank.txt", " \n\t ")] "key" "0.7"
    none none "prompts/blank.txt" " \n\t " (by decide) rfl (by decide)
